import Mathlib

/-!
Verification of the kocom_wallpad packet codec and hub controllers.

The definitions below are a shallow embedding of
`custom_components/kocom_wallpad/kocom_packet.py` (frame codec) and
`custom_components/kocom_wallpad/hub.py` (read loop, reconnect logic,
light/outlet batching, gas valve controller).  Byte strings are embedded as
`List Nat`, Python exceptions as explicit result constructors.
-/

namespace KocomWallpad

/-! ## Frame codec (kocom_packet.py) -/

/-- Frame header constant `b"\xaa\x55"`. -/
def header : List Nat := [0xAA, 0x55]

/-- Frame footer constant `b"\x0d\x0d"`. -/
def footer : List Nat := [0x0D, 0x0D]

/-- Parsed packet type: `Seq` (data frame) or `Ack` (acknowledgement). -/
inductive PacketType where
  | Seq
  | Ack
deriving Repr, DecidableEq

/-- `PacketType.parse` from kocom_packet.py: compares the two type bytes with
the exact constants `30 BC` and `30 DC`; anything else raises `ValueError`
(`none` here). -/
def PacketType.parse (value : List Nat) : Option PacketType :=
  if value = [0x30, 0xBC] then some PacketType.Seq
  else if value = [0x30, 0xDC] then some PacketType.Ack
  else none

/-- Parsed device: the codec in src knows only `Wallpad` (`01 00`) and
`Light room` (`0E rr`). -/
inductive Device where
  | Wallpad
  | Light (room : Nat)
deriving Repr, DecidableEq

/-- `Device.parse` from kocom_packet.py: `b"\x01\x00"` is Wallpad, a first
byte `0x0E` is a Light with the second byte as room; anything else raises
`ValueError` (`none` here). -/
def Device.parse (value : List Nat) : Option Device :=
  if value = [0x01, 0x00] then some Device.Wallpad
  else if value.getD 0 0 = 0x0E then some (Device.Light (value.getD 1 0))
  else none

/-- Wire bytes of a device, as produced by the `Wallpad`/`Light` constructors
(`bytes([0x01, 0x00])`, `bytes([0x0E, 0x00 + room])`). -/
def Device.bytes : Device → List Nat
  | Device.Wallpad => [0x01, 0x00]
  | Device.Light room => [0x0E, room]

/-- A device is representable as bytes when its room index fits in one byte. -/
def Device.valid : Device → Bool
  | Device.Wallpad => true
  | Device.Light room => decide (room < 256)

/-- Parsed command: the codec in src knows only `Set` (`0x00`) and `Get`
(`0x3A`). -/
inductive Command where
  | Set
  | Get
deriving Repr, DecidableEq

/-- `Command.parse` from kocom_packet.py. -/
def Command.parse (value : List Nat) : Option Command :=
  if value = [0x00] then some Command.Set
  else if value = [0x3A] then some Command.Get
  else none

/-- Wire byte of a command. -/
def Command.bytes : Command → List Nat
  | Command.Set => [0x00]
  | Command.Get => [0x3A]

/-- The fields `KocomPacket.__init__` attaches to a decoded packet. -/
structure Packet where
  type : PacketType
  dst : Device
  src : Device
  cmd : Command
  value : List Nat
  checksum : Nat
deriving Repr, DecidableEq

/-- Result of `KocomPacket(data)`: `ok` on success, `assertError` for the
`assert` statements (length / header / footer), `valueError` for the
`ValueError` raised by `PacketType.parse` / `Device.parse` / `Command.parse`. -/
inductive DecodeResult where
  | ok (p : Packet)
  | assertError
  | valueError
deriving Repr, DecidableEq

/-- `KocomPacket.__init__` from kocom_packet.py: assert length 21, header,
footer; then parse type from bytes 2..3, dst from 5..6, src from 7..8,
command from byte 9; value is bytes 10..17 and checksum byte 18 is stored
without being checked. -/
def decode (data : List Nat) : DecodeResult :=
  if data.length ≠ 21 then DecodeResult.assertError
  else if data.take 2 ≠ header then DecodeResult.assertError
  else if data.drop 19 ≠ footer then DecodeResult.assertError
  else
    match PacketType.parse ((data.drop 2).take 2) with
    | none => DecodeResult.valueError
    | some t =>
      match Device.parse ((data.drop 5).take 2) with
      | none => DecodeResult.valueError
      | some d =>
        match Device.parse ((data.drop 7).take 2) with
        | none => DecodeResult.valueError
        | some s =>
          match Command.parse ((data.drop 9).take 1) with
          | none => DecodeResult.valueError
          | some c =>
            DecodeResult.ok ⟨t, d, s, c, (data.drop 10).take 8, data.getD 18 0⟩

/-- `KocomPacket.create` from kocom_packet.py: body is
`type + b"\x00" + dst + src + cmd + value` with type `Seq` (`30 BC`) and
source `Wallpad`; checksum is `sum(body) % 256`; the frame is
`header + body + checksum + footer`. -/
def create (dst : Device) (cmd : Command) (value : List Nat) : List Nat :=
  let body := [0x30, 0xBC] ++ [0x00] ++ dst.bytes ++ Device.Wallpad.bytes
    ++ cmd.bytes ++ value
  let checksum := body.sum % 256
  header ++ body ++ [checksum] ++ footer

/-- Sum of the body bytes (offsets 2 through 17 inclusive) modulo 256. -/
def checksumOf (bs : List Nat) : Nat := ((bs.drop 2).take 16).sum % 256

/-- A list of length 8 is an explicit 8-tuple. -/
theorem length_eq_eight {l : List Nat} (hl : l.length = 8) :
    ∃ a b c d e f g h, l = [a, b, c, d, e, f, g, h] := by
  match l, hl with
  | [a, b, c, d, e, f, g, h], _ => exact ⟨a, b, c, d, e, f, g, h, rfl⟩

/-- C8: For every frame produced by create (the encoder), the checksum byte at
offset 18 equals the sum of the bytes at offsets 2 through 17 inclusive,
reduced modulo 256. -/
theorem create_checksum (dst : Device) (cmd : Command) (value : List Nat)
    (hl : value.length = 8) :
    (create dst cmd value).getD 18 0 = checksumOf (create dst cmd value) := by
  obtain ⟨a, b, c, d, e, f, g, h, rfl⟩ := length_eq_eight hl
  cases dst <;> cases cmd <;> rfl

/-- Witness for C8 at a concrete frame. -/
theorem create_checksum_witness :
    (create Device.Wallpad Command.Set [255, 0, 0, 0, 0, 0, 0, 0]).getD 18 0 =
      checksumOf (create Device.Wallpad Command.Set [255, 0, 0, 0, 0, 0, 0, 0]) :=
  create_checksum Device.Wallpad Command.Set [255, 0, 0, 0, 0, 0, 0, 0] (by decide)

/-- C4: decoding a frame produced by the encoder succeeds and returns the same
destination, command and value, with source Wallpad, type Seq, and the
embedded checksum equal to the sum of the body bytes mod 256. -/
theorem decode_create (dst : Device) (cmd : Command) (value : List Nat)
    (hd : dst.valid = true) (hl : value.length = 8) (hb : ∀ x ∈ value, x < 256) :
    decode (create dst cmd value) =
      DecodeResult.ok ⟨PacketType.Seq, dst, Device.Wallpad, cmd, value,
        checksumOf (create dst cmd value)⟩ := by
  obtain ⟨a, b, c, d, e, f, g, h, rfl⟩ := length_eq_eight hl
  cases dst <;> cases cmd <;> rfl

/-- Witness for C4 at a concrete destination, command and value. -/
theorem decode_create_witness :
    decode (create (Device.Light 3) Command.Set [255, 0, 0, 0, 0, 0, 0, 0]) =
      DecodeResult.ok ⟨PacketType.Seq, Device.Light 3, Device.Wallpad, Command.Set,
        [255, 0, 0, 0, 0, 0, 0, 0],
        checksumOf (create (Device.Light 3) Command.Set [255, 0, 0, 0, 0, 0, 0, 0])⟩ :=
  decode_create (Device.Light 3) Command.Set [255, 0, 0, 0, 0, 0, 0, 0]
    (by decide) (by decide) (by decide)

/-- Counterexample for C6: the byte pairs `30 BD` and `30 DD`, whose low bytes
are at distance 1 from the canonical `0xBC`/`0xDC` (inside any tolerance
band), are not classified as data / ack: parsing raises `ValueError`. -/
theorem packetType_parse_rejects_band :
    PacketType.parse [0x30, 0xBD] = none ∧ PacketType.parse [0x30, 0xDD] = none := by
  decide

/-- C6 (amended): type-byte classification during decode is strict equality,
not a range match: a pair classifies as a data frame exactly when it is
`30 BC` and as an acknowledgement exactly when it is `30 DC`. -/
theorem packetType_parse_strict (value : List Nat) :
    (PacketType.parse value = some PacketType.Seq ↔ value = [0x30, 0xBC]) ∧
    (PacketType.parse value = some PacketType.Ack ↔ value = [0x30, 0xDC]) := by
  unfold PacketType.parse
  split_ifs with h1 h2 <;> simp_all

/-- Counterexample for C7: every device-class byte of the data model other
than Wallpad and Light (Thermostat 0x36, GasValve 0x2C, Fan 0x48,
Elevator 0x44, Outlet 0x3B, AirConditioner 0x39, AirQuality 0x98) is rejected
by `Device.parse` with `ValueError`. -/
theorem device_parse_rejects_spec_classes :
    Device.parse [0x36, 0x00] = none ∧ Device.parse [0x2C, 0x00] = none ∧
    Device.parse [0x48, 0x00] = none ∧ Device.parse [0x44, 0x00] = none ∧
    Device.parse [0x3B, 0x00] = none ∧ Device.parse [0x39, 0x00] = none ∧
    Device.parse [0x98, 0x00] = none := by
  decide

/-- C7 (amended): `Device.parse` accepts exactly the byte pair `01 00`
(Wallpad) and any pair whose first byte is `0x0E` (Light); every other
device-class byte is an unknown-device error. -/
theorem device_parse_domain (value : List Nat) :
    (Device.parse value).isSome ↔ (value = [0x01, 0x00] ∨ value.getD 0 0 = 0x0E) := by
  unfold Device.parse
  split_ifs <;> simp_all

/-- A 21-byte chunk with correct length, header and footer whose command byte
`0x99` is unknown: decode raises `ValueError` on it. -/
def badCommandChunk : List Nat :=
  [0xAA, 0x55, 0x30, 0xBC, 0x00, 0x01, 0x00, 0x01, 0x00, 0x99,
   0, 0, 0, 0, 0, 0, 0, 0, 0x00, 0x0D, 0x0D]

/-- A 21-byte frame whose stored checksum byte `0x07` disagrees with the sum
of bytes 2..17 mod 256 (which is `0xFA`), but is otherwise well formed. -/
def badChecksumChunk : List Nat :=
  [0xAA, 0x55, 0x30, 0xBC, 0x00, 0x0E, 0x00, 0x01, 0x00, 0x00,
   0xFF, 0, 0, 0, 0, 0, 0, 0, 0x07, 0x0D, 0x0D]

/-- Counterexample for C5: a byte string of length 21 with the exact header
`AA 55` and footer `0D 0D` is nevertheless rejected by decode (its command
byte is unknown), so rejection is not limited to length / header / footer
mismatches. -/
theorem decode_rejects_beyond_framing :
    badCommandChunk.length = 21 ∧ badCommandChunk.take 2 = header ∧
    badCommandChunk.drop 19 = footer ∧
    decode badCommandChunk = DecodeResult.valueError := by
  decide

/-- C5 (amended): decode rejects a byte string exactly when its length is not
21, its header or footer is wrong, or its type pair, one of its device-class
byte pairs, or its command byte is unknown.  A checksum mismatch is never by
itself a reason for rejection: the checksum does not occur in the acceptance
condition, and the concrete frame `badChecksumChunk`, whose stored checksum
byte disagrees with the body sum, still decodes to its fields. -/
theorem decode_ok_iff :
    (∀ bs : List Nat, (∃ p, decode bs = DecodeResult.ok p) ↔
      (bs.length = 21 ∧ bs.take 2 = header ∧ bs.drop 19 = footer ∧
       (PacketType.parse ((bs.drop 2).take 2)).isSome ∧
       (Device.parse ((bs.drop 5).take 2)).isSome ∧
       (Device.parse ((bs.drop 7).take 2)).isSome ∧
       (Command.parse ((bs.drop 9).take 1)).isSome)) ∧
    (decode badChecksumChunk =
      DecodeResult.ok ⟨PacketType.Seq, Device.Light 0, Device.Wallpad, Command.Set,
        [0xFF, 0, 0, 0, 0, 0, 0, 0], 0x07⟩ ∧
     checksumOf badChecksumChunk ≠ 0x07) := by
  constructor
  · intro bs
    unfold decode
    split_ifs with h1 h2 h3
    · simp [h1]
    · simp [h1, h2]
    · simp [h1, h2, h3]
    · cases ht : PacketType.parse ((bs.drop 2).take 2) <;>
        cases hd : Device.parse ((bs.drop 5).take 2) <;>
        cases hs : Device.parse ((bs.drop 7).take 2) <;>
        cases hc : Command.parse ((bs.drop 9).take 1) <;>
        simp_all
  · constructor
    · decide
    · decide

/-! ## Hub read loop (hub.py, Hub.read_loop) -/

/-- Outcome of one read-loop iteration on a chunk, from hub.py: an empty read
means the peer closed the connection (start reconnect and break); a decode
`AssertionError` is caught by the inner handler (warn and continue); any other
exception — in particular the codec's `ValueError` — reaches the outer
handler, which starts reconnection and breaks the loop; an `Ack` packet is
ignored; other packets are dispatched. -/
inductive ReadOutcome where
  | connClosed
  | logContinue
  | ackIgnored
  | processed (p : Packet)
  | reconnectBreak
deriving Repr, DecidableEq

/-- One iteration of `Hub.read_loop` on the chunk it just read. -/
def readStep (data : List Nat) : ReadOutcome :=
  if data = [] then ReadOutcome.connClosed
  else
    match decode data with
    | DecodeResult.assertError => ReadOutcome.logContinue
    | DecodeResult.valueError => ReadOutcome.reconnectBreak
    | DecodeResult.ok p =>
      if p.type = PacketType.Ack then ReadOutcome.ackIgnored
      else ReadOutcome.processed p

/-- A 21-byte chunk whose only defect is the unknown type pair `30 BB`. -/
def unknownTypeChunk : List Nat :=
  [0xAA, 0x55, 0x30, 0xBB, 0x00, 0x0E, 0x00, 0x01, 0x00, 0x00,
   0, 0, 0, 0, 0, 0, 0, 0, 0x00, 0x0D, 0x0D]

/-- Counterexample for C1: a chunk with correct length, header and footer but
an unknown type byte pair makes the read loop start reconnection and break
out — a frame-level decode error does terminate the loop. -/
theorem unknown_type_terminates_read_loop :
    unknownTypeChunk.length = 21 ∧ unknownTypeChunk.take 2 = header ∧
    unknownTypeChunk.drop 19 = footer ∧
    readStep unknownTypeChunk = ReadOutcome.reconnectBreak := by
  decide

/-- C1 (amended): for a non-empty chunk, only decode failures raised as
`AssertionError` — wrong length, wrong header or wrong footer, and exactly
those — are logged and skipped with the loop continuing; a decode failure
raised as `ValueError` (unknown type pair, unknown device-class byte, unknown
command byte) escapes the inner handler, triggers reconnection and terminates
the read loop. -/
theorem readStep_error_handling (data : List Nat) (hne : data ≠ []) :
    (decode data = DecodeResult.assertError → readStep data = ReadOutcome.logContinue) ∧
    (decode data = DecodeResult.valueError → readStep data = ReadOutcome.reconnectBreak) ∧
    (decode data = DecodeResult.assertError ↔
      data.length ≠ 21 ∨ data.take 2 ≠ header ∨ data.drop 19 ≠ footer) := by
  refine ⟨fun h => by simp [readStep, hne, h], fun h => by simp [readStep, hne, h], ?_⟩
  unfold decode
  split_ifs with h1 h2 h3
  · simp [h1]
  · simp [h2]
  · simp [h3]
  · cases ht : PacketType.parse ((data.drop 2).take 2) <;>
      cases hd : Device.parse ((data.drop 5).take 2) <;>
      cases hs : Device.parse ((data.drop 7).take 2) <;>
      cases hc : Command.parse ((data.drop 9).take 1) <;>
      simp_all

/-- Witness for C1's amended theorem at the concrete chunk `[0]` (wrong
length, hence an `AssertionError` that is logged and skipped). -/
theorem readStep_error_handling_witness :
    (decode [0] = DecodeResult.assertError → readStep [0] = ReadOutcome.logContinue) ∧
    (decode [0] = DecodeResult.valueError → readStep [0] = ReadOutcome.reconnectBreak) ∧
    (decode [0] = DecodeResult.assertError ↔
      ([0] : List Nat).length ≠ 21 ∨ ([0] : List Nat).take 2 ≠ header ∨
      ([0] : List Nat).drop 19 ≠ footer) :=
  readStep_error_handling [0] (by decide)

/-! ## Connection manager (hub.py, Hub.connect / Hub._start_reconnect)

The connection-relevant hub attributes are `_should_reconnect`,
`_reconnect_attempt_count`, `_reconnect_task` (modelled as the boolean "a
task object is stored", since both a running and a completed task are
truthy) and the reader/writer pair (modelled as `connected`).  The outcome
of the n-th `open_connection` call is given by an oracle `ok : Nat → Bool`;
a `false` entry is the `OSError` case. -/

/-- `Hub._max_reconnect_attempts`. -/
def maxReconnectAttempts : Nat := 5

/-- Connection-related state of the Hub. -/
structure HubConn where
  shouldReconnect : Bool
  reconnectAttemptCount : Nat
  reconnectTaskSet : Bool
  connected : Bool
deriving Repr, DecidableEq

/-- `Hub.connect` from hub.py: while the flag is set and the counter is below
the maximum, try `open_connection` (the n-th attempt succeeds iff `ok n`).
On success cancel and clear the reconnect task and break; on `OSError`, if no
reconnect task exists re-raise as `ConfigEntryNotReady` (the `error` case,
carrying the next attempt index), otherwise increment the counter, sleep the
backoff and loop.  After the loop — reached by falling through the guard or
by the success break, but not by the raise — the counter is reset to 0. -/
def connect (ok : Nat → Bool) (n : Nat) (s : HubConn) : Except Nat (HubConn × Nat) :=
  if h : s.shouldReconnect = true ∧ s.reconnectAttemptCount < maxReconnectAttempts then
    if ok n then
      Except.ok ({ s with
        connected := true
        reconnectTaskSet := false
        reconnectAttemptCount := 0 }, n + 1)
    else if s.reconnectTaskSet then
      connect ok (n + 1) { s with reconnectAttemptCount := s.reconnectAttemptCount + 1 }
    else
      Except.error (n + 1)
  else
    Except.ok ({ s with reconnectAttemptCount := 0 }, n)
termination_by maxReconnectAttempts - s.reconnectAttemptCount
decreasing_by
  simp only [maxReconnectAttempts] at *
  omega

/-- The `reconnect` coroutine inside `Hub._start_reconnect`: while the flag is
set, increment the counter and call `connect`.  If `connect` returns, restart
the read/send loops, reset the counter and break.  If it raises, clear the
flag and break when the counter has reached the maximum, else sleep the
backoff and loop. -/
def reconnectTask (ok : Nat → Bool) (n : Nat) (s : HubConn) : HubConn × Nat :=
  if s.shouldReconnect = true then
    match connect ok n { s with reconnectAttemptCount := s.reconnectAttemptCount + 1 } with
    | Except.ok (s2, n2) => ({ s2 with reconnectAttemptCount := 0 }, n2)
    | Except.error n2 =>
      if h : maxReconnectAttempts ≤ s.reconnectAttemptCount + 1 then
        ({ s with
          reconnectAttemptCount := s.reconnectAttemptCount + 1
          shouldReconnect := false }, n2)
      else
        reconnectTask ok n2 { s with reconnectAttemptCount := s.reconnectAttemptCount + 1 }
  else (s, n)
termination_by maxReconnectAttempts + 1 - s.reconnectAttemptCount
decreasing_by
  simp only [maxReconnectAttempts] at *
  omega

/-- `Hub._start_reconnect` from hub.py: return immediately if a reconnect
task already exists, otherwise store the task handle and run it. -/
def startReconnect (ok : Nat → Bool) (n : Nat) (s : HubConn) : HubConn × Nat :=
  if s.reconnectTaskSet then (s, n)
  else reconnectTask ok n { s with reconnectTaskSet := true }

/-- Inside a reconnect task (the task handle is stored, so it is truthy),
`connect` never raises: every `OSError` is absorbed by the retry loop, and
when the counter reaches the maximum the loop falls through, resets the
counter to 0 and returns normally.  The flag is never written. -/
theorem connect_taskSet_ok (ok : Nat → Bool) :
    ∀ fuel n (s : HubConn),
      maxReconnectAttempts - s.reconnectAttemptCount ≤ fuel →
      s.reconnectTaskSet = true →
      ∃ s2 n2, connect ok n s = Except.ok (s2, n2) ∧
        s2.shouldReconnect = s.shouldReconnect := by
  intro fuel
  induction fuel with
  | zero =>
    intro n s hfuel htask
    have hge : maxReconnectAttempts ≤ s.reconnectAttemptCount := by omega
    rw [connect]
    rw [dif_neg (fun hc => absurd hc.2 (by omega))]
    exact ⟨_, _, rfl, rfl⟩
  | succ k ih =>
    intro n s hfuel htask
    rw [connect]
    by_cases hguard : s.shouldReconnect = true ∧
        s.reconnectAttemptCount < maxReconnectAttempts
    · rw [dif_pos hguard]
      by_cases hok : ok n
      · rw [if_pos hok]
        exact ⟨_, _, rfl, rfl⟩
      · rw [if_neg hok, if_pos htask]
        obtain ⟨s2, n2, heq, hflag⟩ :=
          ih (n + 1) { s with reconnectAttemptCount := s.reconnectAttemptCount + 1 }
            (by simp; omega) htask
        exact ⟨s2, n2, heq, hflag⟩
    · rw [dif_neg hguard]
      exact ⟨_, _, rfl, rfl⟩

/-- A reconnect task whose handle is stored can never clear the
should-reconnect flag: its `connect` call always returns normally, so the
error branch that would clear the flag is unreachable. -/
theorem reconnectTask_keeps_flag (ok : Nat → Bool) (n : Nat) (s : HubConn)
    (htask : s.reconnectTaskSet = true) :
    (reconnectTask ok n s).1.shouldReconnect = s.shouldReconnect := by
  rw [reconnectTask]
  by_cases hs : s.shouldReconnect = true
  · rw [if_pos hs]
    obtain ⟨s2, n2, heq, hflag⟩ := connect_taskSet_ok ok
      (maxReconnectAttempts - (s.reconnectAttemptCount + 1)) n
      { s with reconnectAttemptCount := s.reconnectAttemptCount + 1 }
      (by simp) (by simpa using htask)
    rw [heq]
    simpa using hflag
  · rw [if_neg hs]

/-- The concrete permanently-failing run: reconnection triggered with no
prior task, every connection attempt failing.  The run makes exactly 4
`open_connection` attempts, then stops with the flag still `true`, the
counter reset to 0 and the (finished) task handle still stored. -/
theorem startReconnect_all_fail_run :
    startReconnect (fun _ => false) 0
        ⟨true, 0, false, false⟩ =
      (⟨true, 0, true, false⟩, 4) := by
  unfold startReconnect
  simp only [Bool.false_eq_true, if_false]
  rw [reconnectTask]
  simp [connect, maxReconnectAttempts]

/-- C2: the claimed behaviour — 5 attempts, then the should-reconnect flag is
cleared and stays cleared — does not occur.  A stored-task reconnect run can
never change the flag (first conjunct), and the concrete all-attempts-fail
run stops after 4 attempts with the flag still set (second conjunct). -/
theorem reconnect_never_disables_flag (ok : Nat → Bool) (n : Nat) (s : HubConn)
    (htask : s.reconnectTaskSet = true) :
    (reconnectTask ok n s).1.shouldReconnect = s.shouldReconnect ∧
    startReconnect (fun _ => false) 0 ⟨true, 0, false, false⟩ =
      (⟨true, 0, true, false⟩, 4) :=
  ⟨reconnectTask_keeps_flag ok n s htask, startReconnect_all_fail_run⟩

/-- Witness for C2's theorem at a concrete oracle and state. -/
theorem reconnect_never_disables_flag_witness :
    (reconnectTask (fun _ => false) 0 ⟨true, 0, true, false⟩).1.shouldReconnect =
      (⟨true, 0, true, false⟩ : HubConn).shouldReconnect ∧
    startReconnect (fun _ => false) 0 ⟨true, 0, false, false⟩ =
      (⟨true, 0, true, false⟩, 4) :=
  reconnect_never_disables_flag (fun _ => false) 0 ⟨true, 0, true, false⟩ rfl

/-! ## Light / outlet bank batching (hub.py, LightController; OutletController
is byte-for-byte identical in `_set` / `turn_on` / `turn_off` /
`_handle_packet`) -/

/-- Lifecycle of the nullable `self._task` handle: `idle` is `None`;
`pending` is a created task whose 0.2 s sleep has not elapsed; `fired` is a
completed task object — still truthy, so `if not self._task` remains false
until `_handle_packet` assigns `None`. -/
inductive TaskState where
  | idle
  | pending
  | fired
deriving Repr, DecidableEq

/-- State of a light (or outlet) bank controller: the 8-byte vector
`self._state` and the task handle. -/
structure LightControllerState where
  vec : List Nat
  task : TaskState
deriving Repr, DecidableEq

/-- Initial controller state: `[0] * 8` and no task. -/
def lightInit : LightControllerState := ⟨[0, 0, 0, 0, 0, 0, 0, 0], TaskState.idle⟩

/-- Events a bank controller reacts to: the public mutators, the debounce
window elapsing (the spawned task wakes up and sends), and an inbound status
packet handled by `_handle_packet`. -/
inductive LightEvent where
  | turnOn (n : Nat)
  | turnOff (n : Nat)
  | timerFire
  | handlePacket (v : List Nat)
deriving Repr, DecidableEq

/-- One controller step, returning the new state and the list of `Set` frame
value vectors queued by this event.  `turn_on`/`turn_off` write the vector and
call `_set`, which spawns the task only when the handle is `None`; when the
window elapses the task sends the then-current vector but does not clear the
handle; `_handle_packet` overwrites the vector from the packet and sets the
handle to `None`. -/
def lightStep (s : LightControllerState) : LightEvent → LightControllerState × List (List Nat)
  | LightEvent.turnOn n =>
    ({ vec := s.vec.set n 0xFF,
       task := if s.task = TaskState.idle then TaskState.pending else s.task }, [])
  | LightEvent.turnOff n =>
    ({ vec := s.vec.set n 0x00,
       task := if s.task = TaskState.idle then TaskState.pending else s.task }, [])
  | LightEvent.timerFire =>
    if s.task = TaskState.pending then ({ s with task := TaskState.fired }, [s.vec])
    else (s, [])
  | LightEvent.handlePacket v => ({ vec := v, task := TaskState.idle }, [])

/-- Run a controller over a sequence of events, collecting all queued frames. -/
def lightRun (s : LightControllerState) : List LightEvent → LightControllerState × List (List Nat)
  | [] => (s, [])
  | e :: es =>
    let step := lightStep s e
    let rest := lightRun step.1 es
    (rest.1, step.2 ++ rest.2)

/-- Counterexample for C3: two `turn_on` calls separated by an elapsed
debounce window produce a single `Set` frame, not one frame each — after the
window elapses and the frame is sent the task handle is still not `None`, so
the second call spawns no new timer and its mutation is never sent. -/
theorem spaced_calls_do_not_each_send :
    (lightRun lightInit
      [LightEvent.turnOn 0, LightEvent.timerFire,
       LightEvent.turnOn 1, LightEvent.timerFire]).2 =
      [[0xFF, 0, 0, 0, 0, 0, 0, 0]] ∧
    (lightRun lightInit [LightEvent.turnOn 0, LightEvent.timerFire]).1.task ≠
      TaskState.idle := by
  decide

/-- C3 (amended): mutations never send a frame directly; within one debounce
window they coalesce into exactly one `Set` frame carrying every mutation
(the spec trace `turn_on 0; turn_off 1; turn_on 2` yields exactly the frame
`FF 00 FF 00 …`).  But the pending-task handle is not cleared when the frame
is sent: it is cleared only when `_handle_packet` processes an inbound status
packet, so calls spaced beyond the window produce separate frames only if an
inbound packet for the bank is handled in between. -/
theorem light_batching (s : LightControllerState) (n : Nat) (v : List Nat) :
    (lightStep s (LightEvent.turnOn n)).2 = [] ∧
    (lightStep s (LightEvent.turnOff n)).2 = [] ∧
    (lightStep s (LightEvent.turnOn n)).1.task =
      (if s.task = TaskState.idle then TaskState.pending else s.task) ∧
    lightStep s LightEvent.timerFire =
      (if s.task = TaskState.pending then ({ s with task := TaskState.fired }, [s.vec])
       else (s, [])) ∧
    (lightStep s (LightEvent.handlePacket v)).1.task = TaskState.idle ∧
    lightRun lightInit
        [LightEvent.turnOn 0, LightEvent.turnOff 1, LightEvent.turnOn 2,
         LightEvent.timerFire] =
      (⟨[0xFF, 0x00, 0xFF, 0, 0, 0, 0, 0], TaskState.fired⟩,
       [[0xFF, 0x00, 0xFF, 0, 0, 0, 0, 0]]) ∧
    (lightRun lightInit
        [LightEvent.turnOn 0, LightEvent.timerFire,
         LightEvent.handlePacket [0xFF, 0, 0, 0, 0, 0, 0, 0],
         LightEvent.turnOn 1, LightEvent.timerFire]).2 =
      [[0xFF, 0, 0, 0, 0, 0, 0, 0], [0xFF, 0xFF, 0, 0, 0, 0, 0, 0]] := by
  refine ⟨rfl, rfl, rfl, rfl, rfl, by decide, by decide⟩

/-! ## Gas valve controller (hub.py, GasValve)

`GasValve._handle_packet` matches on `Command.Lock` / `Command.Unlock` and
`GasValve.lock` sends `Command.Lock`.  These members belong to the
kocom_packet revision hub.py imports, which is not in src (src ships the
older kocom_packet.py whose Command knows only Set and Get), so the command
set is modelled from the spec. -/

/-- Modelled from the spec: the command codes of the packet module hub.py
imports — `Get=0x3A, Set=0x00, Lock=0x02, Unlock=0x01, Elevator-call=0x01` —
of which `Lock`, `Unlock` and `Elevator` are missing from the kocom_packet.py
in src. -/
inductive HubCommand where
  | Get
  | Set
  | Lock
  | Unlock
  | Elevator
deriving Repr, DecidableEq

/-- Gas valve controller state: `self.is_locked` plus the identities of the
registered callbacks (`self._callbacks`). -/
structure GasValveState where
  isLocked : Bool
  callbacks : List Nat
deriving Repr, DecidableEq

/-- `GasValve._handle_packet` from hub.py: `Lock` sets `is_locked`, `Unlock`
clears it, any other command leaves it unchanged; the packet's value bytes
are never read.  `write_ha_state` then invokes every registered callback
exactly once; the returned list is the sequence of callback invocations. -/
def gasValveHandlePacket (s : GasValveState) (cmd : HubCommand) (value : List Nat) :
    GasValveState × List Nat :=
  let locked :=
    match cmd with
    | HubCommand.Lock => true
    | HubCommand.Unlock => false
    | _ => s.isLocked
  ({ s with isLocked := locked }, s.callbacks)

/-- The default value vector of `Hub.send` (`[0] * 8`). -/
def zeroValue : List Nat := [0, 0, 0, 0, 0, 0, 0, 0]

/-- `GasValve.lock` from hub.py: queue one `Lock` frame via `Hub.send` with
the default all-zero value; nothing else happens — in particular no field of
the controller is written. -/
def gasValveLock (s : GasValveState) : GasValveState × List (HubCommand × List Nat) :=
  (s, [(HubCommand.Lock, zeroValue)])

/-- C9: handling a `Lock` frame sets `is_locked` and invokes every registered
callback exactly once (in registration order); handling a subsequent `Unlock`
frame clears it; `Get`, `Set` and `Elevator` frames leave `is_locked`
unchanged (though they still notify); and the handler's result never depends
on the value bytes. -/
theorem gasValve_handle_lock_unlock (s : GasValveState) (cmd : HubCommand)
    (v w : List Nat) :
    (gasValveHandlePacket s HubCommand.Lock v).1.isLocked = true ∧
    (gasValveHandlePacket s HubCommand.Lock v).2 = s.callbacks ∧
    (gasValveHandlePacket (gasValveHandlePacket s HubCommand.Lock v).1
        HubCommand.Unlock w).1.isLocked = false ∧
    (gasValveHandlePacket s HubCommand.Get v).1.isLocked = s.isLocked ∧
    (gasValveHandlePacket s HubCommand.Set v).1.isLocked = s.isLocked ∧
    (gasValveHandlePacket s HubCommand.Elevator v).1.isLocked = s.isLocked ∧
    (gasValveHandlePacket s cmd v).2 = s.callbacks ∧
    gasValveHandlePacket s cmd v = gasValveHandlePacket s cmd w := by
  cases cmd <;> exact ⟨rfl, rfl, rfl, rfl, rfl, rfl, rfl, rfl⟩

/-- C10: `lock()` queues exactly one `Lock` command frame and performs no
optimistic local update — the controller state (in particular `is_locked`) is
returned unchanged; `is_locked` moves only in `_handle_packet`, on `Lock` and
`Unlock` frames.  By contrast a bank controller's `turn_on` mutates its local
state vector before anything is sent. -/
theorem gasValve_lock_no_local_update (s : GasValveState)
    (ls : LightControllerState) (n : Nat) :
    gasValveLock s = (s, [(HubCommand.Lock, zeroValue)]) ∧
    (gasValveLock s).1 = s ∧
    (gasValveHandlePacket s HubCommand.Get zeroValue).1.isLocked = s.isLocked ∧
    (gasValveHandlePacket s HubCommand.Set zeroValue).1.isLocked = s.isLocked ∧
    (gasValveHandlePacket s HubCommand.Elevator zeroValue).1.isLocked = s.isLocked ∧
    (gasValveHandlePacket s HubCommand.Lock zeroValue).1.isLocked = true ∧
    (gasValveHandlePacket s HubCommand.Unlock zeroValue).1.isLocked = false ∧
    (lightStep ls (LightEvent.turnOn n)).1.vec = ls.vec.set n 0xFF := by
  exact ⟨rfl, rfl, rfl, rfl, rfl, rfl, rfl, rfl⟩

end KocomWallpad
